import Mathlib

/-!
Verification development for the CEF Dashboard news pipeline
(`core/news_fetcher.py`).

The pure part of the pipeline is embedded shallowly:

* the classifier reference data of `EnhancedCEFNewsClassifier`;
* `CEFNewsFetcher.enhanced_classify_article` (scoring, category, matches);
* `CEFNewsFetcher.advanced_deduplication` (token-set Jaccard dedup);
* `CEFNewsFetcher.process_articles` (article construction and the
  relevance filter);
* the final `list.sort(key=priority_score, reverse=True)` of
  `CEFNewsFetcher.fetch_all_news`, modelled by a stable insertion sort.

Python floats are modelled as exact rationals: every weight in the source
is a decimal literal and the claims under study concern the weights
themselves, not rounding. Strings are processed as `List Char`; the
reference data and the concrete inputs are ASCII, where Python `str.lower`,
`\w` and `\s` agree with the ASCII notions used here.
-/

/-- Tickers watched by the classifier (`EnhancedCEFNewsClassifier.cef_tickers`). -/
def cef_tickers : List String :=
  ["ASA", "SWZ", "ECF", "BCV", "NBXG", "JOF", "GAM", "BIGZ", "BMEZ", "TTP",
   "PHD", "PHT", "MAV", "MHI", "MIO", "HNW", "RCS", "MCI", "RSF", "UTF",
   "EVV", "EXG", "AVK", "CHW", "CII", "EOI", "ETW", "EVG", "EVN", "EVT"]

/-- Fund management companies (`EnhancedCEFNewsClassifier.fund_families`). -/
def fund_families : List String :=
  ["BlackRock", "Nuveen", "Eaton Vance", "PIMCO", "Calamos", "Cohen & Steers",
   "Gabelli", "Pioneer", "MFS", "Invesco", "Aberdeen", "Western Asset",
   "Neuberger Berman", "Tortoise", "Flaherty & Crumrine"]

/-- Domain keywords (`EnhancedCEFNewsClassifier.cef_keywords`). -/
def cef_keywords : List String :=
  ["closed-end fund", "closed end fund", "CEF", "discount to NAV", "premium to NAV",
   "net asset value", "fund distribution", "managed distribution", "rights offering",
   "tender offer", "liquidation", "conversion to open-end", "activist investor",
   "proxy contest", "board of directors", "fund merger", "fund reorganization",
   "distribution coverage", "leverage", "preferred shares"]

/-- Activist firms (`EnhancedCEFNewsClassifier.activist_firms`). -/
def activist_firms : List String :=
  ["Saba Capital", "Bulldog Investors", "Karpus Investment Management",
   "City of London Investment Management", "Laxey Partners", "RiverNorth Capital",
   "Cornerstone Strategic Value Fund", "Engine Capital", "Ancora Advisors"]

/-- Characters matched by the regex class of word characters (ASCII scope):
letters, digits and the underscore. -/
def word_char (c : Char) : Bool := c.isAlphanum || c == '_'

/-- Boundary test next to a purely alphanumeric pattern: the regex word
boundary holds at either end of the text and next to any non-word character. -/
def word_boundary : Option Char → Bool
  | none => true
  | some c => !(word_char c)

/-- Pattern `w` matches at the current position, with a word boundary at its
right end. -/
def word_match_here (w text : List Char) : Bool :=
  w.isPrefixOf text && word_boundary (text.drop w.length).head?

/-- Scan of `re.search` for an alphanumeric pattern enclosed in word
boundaries; `prev` is the character just left of the current position
(`none` at the start of the text). -/
def word_search (w : List Char) : Option Char → List Char → Bool
  | prev, [] => word_boundary prev && word_match_here w []
  | prev, c :: rest =>
    (word_boundary prev && word_match_here w (c :: rest)) || word_search w (some c) rest

/-- Python substring containment (`needle in text`) on character lists. -/
def contains_sub (w : List Char) : List Char → Bool
  | [] => w.isEmpty
  | c :: rest => w.isPrefixOf (c :: rest) || contains_sub w rest

/-- Text scored by the classifier: Python `f"{title} {content}".lower()`
(`enhanced_classify_article`, line 315). -/
def classify_text (title content : String) : List Char :=
  (title.data ++ ' ' :: content.data).map Char.toLower

/-- Tickers appended by the first classifier loop (lines 322-325): those whose
lower-cased symbol occurs in the text between word boundaries. -/
def found_tickers (text : List Char) : List String :=
  cef_tickers.filter (fun t => word_search (t.data.map Char.toLower) none text)

/-- Fund families matched by the second classifier loop (lines 328-331):
case-insensitive substring matches. The list is local to the classifier and
is not part of its return value. -/
def found_fund_names (text : List Char) : List String :=
  fund_families.filter (fun f => contains_sub (f.data.map Char.toLower) text)

/-- Keywords matched by the third classifier loop (lines 334-336):
case-insensitive substring matches. -/
def found_keywords (text : List Char) : List String :=
  cef_keywords.filter (fun k => contains_sub (k.data.map Char.toLower) text)

/-- Activist firms appended by the fourth classifier loop (lines 339-342):
case-insensitive substring matches. -/
def found_activists (text : List Char) : List String :=
  activist_firms.filter (fun a => contains_sub (a.data.map Char.toLower) text)

/-- Relevance accumulated by `enhanced_classify_article` before the final
clamp: each loop adds its weight once per matching entry, in source order
(tickers 0.4, fund families 0.3, keywords 0.2, activist firms 0.5), then
lines 344-346 add a bonus 0.2 when more than one ticker matched. -/
def relevance_pre_clamp (text : List Char) : ℚ :=
  (2/5) * ((found_tickers text).length : ℚ)
    + (3/10) * ((found_fund_names text).length : ℚ)
    + (1/5) * ((found_keywords text).length : ℚ)
    + (1/2) * ((found_activists text).length : ℚ)
    + (if 1 < (found_tickers text).length then 1/5 else 0)

/-- Category assignment (lines 349-355): first matching substring family
wins, else "general". -/
def category_of (text : List Char) : String :=
  if ["activist", "proxy", "tender"].any (fun t => contains_sub t.data text) then
    "activist_activity"
  else if ["distribution", "dividend", "yield"].any (fun t => contains_sub t.data text) then
    "distributions"
  else if ["merger", "liquidation", "conversion"].any (fun t => contains_sub t.data text) then
    "corporate_actions"
  else "general"

/-- Tuple returned by `enhanced_classify_article`:
`(category, final_relevance, 0.0, found_tickers, found_activists)`. -/
structure ClassifyResult where
  category : String
  relevance : ℚ
  sentiment : ℚ
  tickers : List String
  activists : List String
deriving DecidableEq

/-- Embedding of `CEFNewsFetcher.enhanced_classify_article` (lines 311-360):
the relevance is the accumulated score clamped to 1.0, the sentiment is the
constant 0.0, and only the ticker and activist matches are returned. -/
def enhanced_classify_article (title content : String) : ClassifyResult :=
  let text := classify_text title content
  { category := category_of text
    relevance := min (relevance_pre_clamp text) 1
    sentiment := 0
    tickers := found_tickers text
    activists := found_activists text }

/-- Raw article dictionary flowing between the fetchers, the deduplicator and
`process_articles`. Python dictionaries whose values are strings are modelled
with one `Option String` per key consulted by the pipeline (`none` = key
absent; the producers in the source only ever store strings). -/
structure RawArticle where
  id : Option String
  title : Option String
  summary : Option String
  content : Option String
  url : Option String
  source : Option String
  published_at : Option String
deriving DecidableEq

/-- Dataclass `EnhancedNewsArticle` as populated by `process_articles`. -/
structure EnhancedNewsArticle where
  id : String
  title : String
  summary : String
  content : String
  url : String
  source : String
  published_at : String
  category : String
  priority_score : ℚ
  sentiment_score : ℚ
  relevance_score : ℚ
  tickers : List String
  fund_names : List String
  activist_mentions : List String
deriving DecidableEq

/-- Python `str.split()` on a character list: whitespace runs separate words,
empty words are not produced. `acc` holds the current word reversed. -/
def split_words (acc : List Char) : List Char → List (List Char)
  | [] => if acc.isEmpty then [] else [acc.reverse]
  | c :: rest =>
    if c.isWhitespace then
      if acc.isEmpty then split_words [] rest else acc.reverse :: split_words [] rest
    else split_words (c :: acc) rest

/-- Token set built by `advanced_deduplication` (lines 441-445): lower-cased
`title + " " + summary`, punctuation removed (every character outside the word
and whitespace classes dropped), split on whitespace runs. -/
def content_words (a : RawArticle) : Finset (List Char) :=
  let text := ((a.title.getD "").data ++ ' ' :: (a.summary.getD "").data).map Char.toLower
  let cleaned := text.filter (fun c => word_char c || c.isWhitespace)
  (split_words [] cleaned).toFinset

/-- Jaccard similarity as computed at lines 451-453, with the quotient taken
to be 0 when the union is empty. -/
def jaccard_similarity (s t : Finset (List Char)) : ℚ :=
  if 0 < (s ∪ t).card then ((s ∩ t).card : ℚ) / ((s ∪ t).card : ℚ) else 0

/-- Loop of `advanced_deduplication` (lines 439-461). `seen` models the
`seen_content` set of token frozensets: a list is enough because the loop only
ever asks whether some member is more than 0.7-similar to the candidate. -/
def dedup_loop (seen : List (Finset (List Char))) :
    List RawArticle → List RawArticle
  | [] => []
  | a :: rest =>
    if seen.any (fun s => (7:ℚ)/10 < jaccard_similarity (content_words a) s) then
      dedup_loop seen rest
    else
      a :: dedup_loop (content_words a :: seen) rest

/-- Embedding of `CEFNewsFetcher.advanced_deduplication` (lines 435-463). -/
def advanced_deduplication (articles : List RawArticle) : List RawArticle :=
  dedup_loop [] articles

/-- Article built by one iteration of `process_articles` (lines 470-500).
Returns `none` exactly when the loop skips the record: when one of `title`,
`url`, `published_at` is absent (line 473), or when the construction itself
raises a `KeyError` on the direct `raw_article[...]` accesses to `id` or
`source` (line 486/491, caught at line 506). -/
def build_article (r : RawArticle) : Option EnhancedNewsArticle :=
  match r.title, r.url, r.published_at with
  | some t, some u, some p =>
    match r.id, r.source with
    | some i, some s =>
      let c := enhanced_classify_article (r.title.getD "")
        (r.content.getD (r.summary.getD ""))
      some
        { id := i
          title := t
          summary := r.summary.getD ""
          content := r.content.getD ""
          url := u
          source := s
          published_at := p
          category := c.category
          priority_score := c.relevance * 5
          sentiment_score := c.sentiment
          relevance_score := c.relevance
          tickers := c.tickers
          fund_names := []
          activist_mentions := c.activists }
    | _, _ => none
  | _, _, _ => none

/-- Acceptance test of line 503:
`relevance_score > 0.05 or tickers or activist_mentions`
(a Python list is truthy iff non-empty). -/
def keep_article (a : EnhancedNewsArticle) : Bool :=
  ((1:ℚ)/20 < a.relevance_score : Bool) || !a.tickers.isEmpty
    || !a.activist_mentions.isEmpty

/-- Embedding of `CEFNewsFetcher.process_articles` (lines 466-510): build an
article from each raw record that survives the skip conditions, keep it when
`keep_article` holds. -/
def process_articles (raws : List RawArticle) : List EnhancedNewsArticle :=
  raws.filterMap (fun r =>
    match build_article r with
    | some a => if keep_article a then some a else none
    | none => none)

/-- Comparison used by the final sort of `fetch_all_news` (line 559):
`key=lambda x: x.priority_score, reverse=True`. -/
def priority_ge (a b : EnhancedNewsArticle) : Prop :=
  b.priority_score ≤ a.priority_score

instance : DecidableRel priority_ge := fun a b =>
  inferInstanceAs (Decidable (b.priority_score ≤ a.priority_score))

instance : IsTotal EnhancedNewsArticle priority_ge :=
  ⟨fun a b => le_total b.priority_score a.priority_score⟩

instance : IsTrans EnhancedNewsArticle priority_ge :=
  ⟨fun _ _ _ hab hbc => le_trans hbc hab⟩

/-- Model of `processed_articles.sort(key=lambda x: x.priority_score,
reverse=True)`: Python `list.sort` is a stable sort, rendered here by the
stable `List.insertionSort` on the descending-priority comparison. -/
def sort_by_priority (articles : List EnhancedNewsArticle) :
    List EnhancedNewsArticle :=
  articles.insertionSort priority_ge

/-- Pure tail of `CEFNewsFetcher.fetch_all_news` (lines 550-561), starting
from the concatenated fetch results `all_articles`: deduplication (step 4),
processing and classification (step 5), priority sort (step 6). The
network-facing steps 1-3 that produce `all_articles` are effectful and are
not modelled. -/
def fetch_all_news (all_articles : List RawArticle) :
    List EnhancedNewsArticle :=
  sort_by_priority (process_articles (advanced_deduplication all_articles))

/-- Concrete raw record used to instantiate the universally quantified
theorems below. -/
def raw_example : RawArticle :=
  { id := some "i1"
    title := some "Saba Capital"
    summary := some ""
    content := some ""
    url := some "u"
    source := some "s"
    published_at := some "p" }

/-- Article produced by `process_articles` from `raw_example`. -/
def art_example : EnhancedNewsArticle :=
  { id := "i1"
    title := "Saba Capital"
    summary := ""
    content := ""
    url := "u"
    source := "s"
    published_at := "p"
    category := "general"
    priority_score := 5/2
    sentiment_score := 0
    relevance_score := 1/2
    tickers := []
    fund_names := []
    activist_mentions := ["Saba Capital"] }

/-- Raw record with no usable fields: its dedup token set is empty. -/
def raw_blank : RawArticle :=
  { id := none, title := none, summary := none, content := none,
    url := none, source := none, published_at := none }

/-- Concrete raw record whose title is a fund-family name. -/
def raw_blackrock : RawArticle :=
  { id := some "i2"
    title := some "BlackRock"
    summary := some ""
    content := some ""
    url := some "u"
    source := some "s"
    published_at := some "p" }

/-- Article produced by `process_articles` from `raw_blackrock`. -/
def art_blackrock : EnhancedNewsArticle :=
  { id := "i2"
    title := "BlackRock"
    summary := ""
    content := ""
    url := "u"
    source := "s"
    published_at := "p"
    category := "general"
    priority_score := 3/2
    sentiment_score := 0
    relevance_score := 3/10
    tickers := []
    fund_names := []
    activist_mentions := [] }

section HelperLemmas

/-- Evaluation scheme for the accumulated relevance, given the four match
lists of a concrete text. -/
lemma relevance_pre_clamp_eval {title content : String} {t f k a : List String}
    (ht : found_tickers (classify_text title content) = t)
    (hf : found_fund_names (classify_text title content) = f)
    (hk : found_keywords (classify_text title content) = k)
    (ha : found_activists (classify_text title content) = a) :
    relevance_pre_clamp (classify_text title content)
      = (2/5) * (t.length : ℚ) + (3/10) * (f.length : ℚ)
        + (1/5) * (k.length : ℚ) + (1/2) * (a.length : ℚ)
        + (if 1 < t.length then 1/5 else 0) := by
  rw [relevance_pre_clamp, ht, hf, hk, ha]

/-- Clamp evaluation: when the accumulated relevance is at most 1, the
returned relevance equals it. -/
lemma relevance_eval_of_pre {title content : String} {x : ℚ}
    (h : relevance_pre_clamp (classify_text title content) = x) (hx : x ≤ 1) :
    (enhanced_classify_article title content).relevance = x := by
  show min (relevance_pre_clamp (classify_text title content)) 1 = x
  rw [h, min_eq_left hx]

lemma relevance_pre_clamp_saba :
    relevance_pre_clamp (classify_text "Saba Capital" "") = 1/2 := by
  have h1 : found_tickers (classify_text "Saba Capital" "") = [] := by decide
  have h2 : found_fund_names (classify_text "Saba Capital" "") = [] := by decide
  have h3 : found_keywords (classify_text "Saba Capital" "") = [] := by decide
  have h4 : found_activists (classify_text "Saba Capital" "") = ["Saba Capital"] := by decide
  simp only [relevance_pre_clamp, h1, h2, h3, h4, List.length_nil, List.length_cons]
  norm_num

lemma classify_saba :
    enhanced_classify_article "Saba Capital" ""
      = ⟨"general", 1/2, 0, [], ["Saba Capital"]⟩ := by
  simp only [enhanced_classify_article, ClassifyResult.mk.injEq]
  refine ⟨by decide, ?_, trivial, by decide, by decide⟩
  rw [relevance_pre_clamp_saba]
  norm_num

lemma build_raw_example : build_article raw_example = some art_example := by
  simp only [build_article, raw_example, Option.getD_some, classify_saba,
    art_example, Option.some.injEq, EnhancedNewsArticle.mk.injEq]
  norm_num

lemma keep_art_example : keep_article art_example = true := by
  simp only [keep_article, art_example, Bool.or_eq_true, decide_eq_true_eq]
  norm_num

lemma process_raw_example : process_articles [raw_example] = [art_example] := by
  simp only [process_articles, List.filterMap_cons, List.filterMap_nil,
    build_raw_example, keep_art_example, if_true]

lemma dedup_raw_example : advanced_deduplication [raw_example] = [raw_example] := by
  simp [advanced_deduplication, dedup_loop]

lemma pipeline_example : fetch_all_news [raw_example] = [art_example] := by
  rw [fetch_all_news, dedup_raw_example, process_raw_example]
  rfl

lemma filter_sort_by_priority (l : List EnhancedNewsArticle) (q : ℚ) :
    (sort_by_priority l).filter (fun a => decide (a.priority_score = q))
      = l.filter (fun a => decide (a.priority_score = q)) := by
  set p : EnhancedNewsArticle → Bool := fun a => decide (a.priority_score = q) with hp
  have hpair : (l.filter p).Pairwise priority_ge := by
    refine List.pairwise_of_forall_mem_list ?_
    intro a ha b hb
    have ha2 : a.priority_score = q := of_decide_eq_true (List.mem_filter.mp ha).2
    have hb2 : b.priority_score = q := of_decide_eq_true (List.mem_filter.mp hb).2
    unfold priority_ge
    rw [ha2, hb2]
  have hsub : List.Sublist (l.filter p) (sort_by_priority l) :=
    List.sublist_insertionSort hpair (List.filter_sublist l)
  have hself : (l.filter p).filter p = l.filter p :=
    List.filter_eq_self.mpr (fun a ha => (List.mem_filter.mp ha).2)
  have hsub2 : List.Sublist (l.filter p) ((sort_by_priority l).filter p) := by
    have h2 := hsub.filter p
    rwa [hself] at h2
  have hperm : List.Perm ((sort_by_priority l).filter p) (l.filter p) :=
    (List.perm_insertionSort priority_ge l).filter p
  exact (hsub2.eq_of_length hperm.length_eq.symm).symm

lemma sort_by_priority_perm (l : List EnhancedNewsArticle) :
    List.Perm (sort_by_priority l) l :=
  List.perm_insertionSort priority_ge l

lemma jaccard_similarity_comm (s t : Finset (List Char)) :
    jaccard_similarity s t = jaccard_similarity t s := by
  simp only [jaccard_similarity, Finset.union_comm, Finset.inter_comm]

/-- Every record kept by the dedup loop is at most 0.7-similar to every token
set that was already in `seen` when the loop started (the `seen` set only
grows, and each kept record was checked against all of it). -/
lemma dedup_loop_sim_le :
    ∀ (l : List RawArticle) (seen : List (Finset (List Char))) (b : RawArticle),
      b ∈ dedup_loop seen l →
      ∀ s ∈ seen, jaccard_similarity (content_words b) s ≤ 7/10
  | [], _, b, hb => by simp [dedup_loop] at hb
  | a :: rest, seen, b, hb => by
    rw [dedup_loop] at hb
    split at hb
    · exact dedup_loop_sim_le rest seen b hb
    · rename_i hany
      rcases List.mem_cons.mp hb with rfl | hb2
      · intro s hs
        by_contra hgt
        exact hany (List.any_eq_true.mpr
          ⟨s, hs, decide_eq_true (not_le.mp hgt)⟩)
      · intro s hs
        exact dedup_loop_sim_le rest (content_words a :: seen) b hb2 s
          (List.mem_cons_of_mem _ hs)

/-- Pairwise similarity bound for the output of the dedup loop. -/
lemma dedup_loop_pairwise :
    ∀ (l : List RawArticle) (seen : List (Finset (List Char))),
      (dedup_loop seen l).Pairwise
        (fun a b => jaccard_similarity (content_words a) (content_words b) ≤ 7/10)
  | [], _ => by simp [dedup_loop]
  | a :: rest, seen => by
    rw [dedup_loop]
    split
    · exact dedup_loop_pairwise rest seen
    · refine List.pairwise_cons.mpr ⟨?_, dedup_loop_pairwise rest _⟩
      intro b hb
      have h := dedup_loop_sim_le rest (content_words a :: seen) b hb
        (content_words a) (List.mem_cons_self _ _)
      rwa [jaccard_similarity_comm] at h

/-- Keeping records with only empty token sets: nothing is ever dropped. -/
lemma dedup_loop_blank :
    ∀ (l : List RawArticle) (seen : List (Finset (List Char))),
      (∀ a ∈ l, content_words a = ∅) → (∀ s ∈ seen, s = (∅ : Finset (List Char))) →
      dedup_loop seen l = l
  | [], _, _, _ => rfl
  | a :: rest, seen, hl, hs => by
    rw [dedup_loop]
    have hempty : ∀ s ∈ seen,
        ¬((7:ℚ)/10 < jaccard_similarity (content_words a) s) := by
      intro s hsm
      rw [hs s hsm, hl a (List.mem_cons_self _ _)]
      simp only [jaccard_similarity, Finset.union_empty, Finset.card_empty,
        lt_irrefl, if_false, not_lt]
      norm_num
    rw [if_neg]
    · rw [dedup_loop_blank rest _ (fun b hb => hl b (List.mem_cons_of_mem _ hb))]
      intro s hsm
      rcases List.mem_cons.mp hsm with rfl | h2
      · exact hl a (List.mem_cons_self _ _)
      · exact hs s h2
    · intro hany
      rcases List.any_eq_true.mp hany with ⟨s, hsm, hdec⟩
      exact hempty s hsm (of_decide_eq_true hdec)

/-- The acceptance test of line 503, as a proposition. -/
lemma keep_article_iff (a : EnhancedNewsArticle) :
    keep_article a = true ↔
      ((1:ℚ)/20 < a.relevance_score ∨ a.tickers ≠ [] ∨ a.activist_mentions ≠ []) := by
  simp [keep_article, List.isEmpty_iff, decide_eq_true_eq, or_assoc]

/-- Every article `process_articles` constructs carries `fund_names = []`
(line 498). -/
lemma build_article_fund_names {r : RawArticle} {a : EnhancedNewsArticle}
    (h : build_article r = some a) : a.fund_names = [] := by
  unfold build_article at h
  repeat' split at h
  · cases h
    rfl
  · cases h
  · cases h

lemma mem_process_articles {raws : List RawArticle} {a : EnhancedNewsArticle}
    (ha : a ∈ process_articles raws) :
    ∃ r ∈ raws, build_article r = some a ∧ keep_article a = true := by
  rcases List.mem_filterMap.mp ha with ⟨r, hr, hfa⟩
  refine ⟨r, hr, ?_⟩
  split at hfa
  · rename_i b hb
    split at hfa
    · rename_i hk
      cases hfa
      exact ⟨hb, hk⟩
    · cases hfa
  · cases hfa

lemma relevance_pre_clamp_blackrock :
    relevance_pre_clamp (classify_text "BlackRock" "") = 3/10 := by
  have ht : found_tickers (classify_text "BlackRock" "") = [] := by decide
  have hf : found_fund_names (classify_text "BlackRock" "") = ["BlackRock"] := by decide
  have hk : found_keywords (classify_text "BlackRock" "") = [] := by decide
  have ha : found_activists (classify_text "BlackRock" "") = [] := by decide
  rw [relevance_pre_clamp_eval ht hf hk ha]
  simp only [List.length_nil, List.length_cons]
  norm_num

lemma classify_blackrock :
    enhanced_classify_article "BlackRock" "" = ⟨"general", 3/10, 0, [], []⟩ := by
  simp only [enhanced_classify_article, ClassifyResult.mk.injEq]
  refine ⟨by decide, ?_, trivial, by decide, by decide⟩
  rw [relevance_pre_clamp_blackrock]
  norm_num

lemma build_raw_blackrock : build_article raw_blackrock = some art_blackrock := by
  simp only [build_article, raw_blackrock, Option.getD_some, classify_blackrock,
    art_blackrock, Option.some.injEq, EnhancedNewsArticle.mk.injEq]
  norm_num

lemma keep_art_blackrock : keep_article art_blackrock = true := by
  simp only [keep_article, art_blackrock, Bool.or_eq_true, decide_eq_true_eq]
  norm_num

lemma process_raw_blackrock :
    process_articles [raw_blackrock] = [art_blackrock] := by
  simp only [process_articles, List.filterMap_cons, List.filterMap_nil,
    build_raw_blackrock, keep_art_blackrock, if_true]

/-- Relevance of a text matching exactly one activist firm and nothing else. -/
lemma activist_only_eval {f : String}
    (ht : found_tickers (classify_text f "") = [])
    (hf : found_fund_names (classify_text f "") = [])
    (hk : found_keywords (classify_text f "") = [])
    (ha : found_activists (classify_text f "") = [f]) :
    relevance_pre_clamp (classify_text f "") = 1/2 := by
  rw [relevance_pre_clamp_eval ht hf hk ha]
  simp only [List.length_nil, List.length_cons]
  norm_num

lemma process_articles_mem {raws : List RawArticle} {r : RawArticle}
    {a : EnhancedNewsArticle} (hr : r ∈ raws) (hb : build_article r = some a)
    (hk : keep_article a = true) : a ∈ process_articles raws := by
  refine List.mem_filterMap.mpr ⟨r, hr, ?_⟩
  simp only [hb, hk, if_true]

end HelperLemmas

/-- C5: every article in the pipeline's final output satisfies
`relevance_score > 0.05 OR tickers non-empty OR activist_mentions non-empty`,
and every article built by the processing loop that satisfies the condition
is accepted into the processed list. -/
theorem c5_filter_sound_complete :
    (∀ (raws : List RawArticle) (a : EnhancedNewsArticle), a ∈ fetch_all_news raws →
        ((1:ℚ)/20 < a.relevance_score ∨ a.tickers ≠ [] ∨ a.activist_mentions ≠ []))
    ∧ (∀ (l : List RawArticle) (r : RawArticle) (a : EnhancedNewsArticle),
        r ∈ l → build_article r = some a →
        ((1:ℚ)/20 < a.relevance_score ∨ a.tickers ≠ [] ∨ a.activist_mentions ≠ []) →
        a ∈ process_articles l) := by
  constructor
  · intro raws a ha
    have h1 : a ∈ process_articles (advanced_deduplication raws) :=
      (sort_by_priority_perm _).mem_iff.mp ha
    rcases mem_process_articles h1 with ⟨r, _, _, hk⟩
    exact (keep_article_iff a).mp hk
  · intro l r a hr hb hcond
    exact process_articles_mem hr hb ((keep_article_iff a).mpr hcond)

/-- Witness for C5 at the concrete one-article run `[raw_example]`. -/
theorem c5_witness :
    ((1:ℚ)/20 < art_example.relevance_score ∨ art_example.tickers ≠ []
        ∨ art_example.activist_mentions ≠ [])
    ∧ art_example ∈ process_articles [raw_example] := by
  have h1 := c5_filter_sound_complete.1 [raw_example] art_example
    (pipeline_example ▸ List.mem_singleton_self art_example)
  exact ⟨h1, c5_filter_sound_complete.2 [raw_example] raw_example art_example
    (List.mem_singleton_self raw_example) build_raw_example h1⟩

/-- C6: the pipeline output is sorted by `priority_score` descending, and the
articles of any fixed `priority_score` appear in the same order as in the
processed list the sort was applied to (stability of `list.sort`). -/
theorem c6_sort_order (raws : List RawArticle) :
    (fetch_all_news raws).Sorted
      (fun a b => b.priority_score ≤ a.priority_score)
    ∧ ∀ q : ℚ,
        (fetch_all_news raws).filter (fun a => decide (a.priority_score = q))
          = (process_articles (advanced_deduplication raws)).filter
              (fun a => decide (a.priority_score = q)) := by
  constructor
  · exact List.sorted_insertionSort priority_ge _
  · intro q
    exact filter_sort_by_priority _ q

/-- C7: any two articles accepted by the deduplicator have token-set Jaccard
similarity at most 0.7 (with the similarity of two empty token sets taken as
0, as in the code), and the first record of the input always survives. -/
theorem c7_dedup_bound :
    (∀ articles : List RawArticle,
        (advanced_deduplication articles).Pairwise
          (fun a b =>
            jaccard_similarity (content_words a) (content_words b) ≤ 7/10))
    ∧ ∀ (a : RawArticle) (l : List RawArticle),
        (advanced_deduplication (a :: l)).head? = some a := by
  constructor
  · intro articles
    exact dedup_loop_pairwise articles []
  · intro a l
    rw [advanced_deduplication, dedup_loop, if_neg]
    · rfl
    · simp

/-- C9: every article the pipeline returns has `fund_names = []`: the
fund-family matches are local to the classifier and `process_articles`
constructs every article with an empty `fund_names` list. -/
theorem c9_fund_names_empty (raws : List RawArticle) (a : EnhancedNewsArticle)
    (ha : a ∈ fetch_all_news raws) : a.fund_names = [] := by
  have h1 : a ∈ process_articles (advanced_deduplication raws) :=
    (sort_by_priority_perm _).mem_iff.mp ha
  rcases mem_process_articles h1 with ⟨r, _, hb, _⟩
  exact build_article_fund_names hb

/-- Witness for C9 at the concrete one-article run `[raw_example]`. -/
theorem c9_witness : art_example.fund_names = [] :=
  c9_fund_names_empty [raw_example] art_example
    (pipeline_example ▸ List.mem_singleton_self art_example)

/-- C10: when the union of the two token sets is empty the similarity is
defined as 0 (no division by zero), so articles with empty token sets are all
accepted by the deduplicator. -/
theorem c10_empty_token_sets :
    (∀ s t : Finset (List Char), s ∪ t = ∅ → jaccard_similarity s t = 0)
    ∧ ∀ l : List RawArticle, (∀ a ∈ l, content_words a = ∅) →
        advanced_deduplication l = l := by
  constructor
  · intro s t h
    rw [jaccard_similarity, h]
    simp
  · intro l hl
    exact dedup_loop_blank l [] hl (by simp)

/-- Witness for C10: two fully blank records are both kept. -/
theorem c10_witness :
    jaccard_similarity ∅ ∅ = 0
    ∧ advanced_deduplication [raw_blank, raw_blank] = [raw_blank, raw_blank] :=
  ⟨c10_empty_token_sets.1 ∅ ∅ (by simp),
   c10_empty_token_sets.2 [raw_blank, raw_blank] (by decide)⟩

/-- C1 counterexample: the code has no norway/norwegian suppression of the
ticker "ASA", and the per-ticker weight is 0.4, not 0.3. On the text
"Norway ASA registration rules changed" (which contains "norway") the
classifier matches ASA, adds it to `tickers` and scores 0.4; the
ASA-only text of the first example also scores 0.4 rather than 0.3. -/
theorem c1_counterexample :
    (enhanced_classify_article "Norway ASA registration rules changed" "").tickers
        = ["ASA"]
    ∧ (enhanced_classify_article "Norway ASA registration rules changed" "").relevance
        = 2/5
    ∧ (enhanced_classify_article
        "ASA Gold and Precious Metals reports Q3 results" "").relevance = 2/5 := by
  refine ⟨by decide, ?_, ?_⟩
  · have ht : found_tickers (classify_text "Norway ASA registration rules changed" "")
        = ["ASA"] := by decide
    have hf : found_fund_names (classify_text "Norway ASA registration rules changed" "")
        = [] := by decide
    have hk : found_keywords (classify_text "Norway ASA registration rules changed" "")
        = [] := by decide
    have ha : found_activists (classify_text "Norway ASA registration rules changed" "")
        = [] := by decide
    refine relevance_eval_of_pre ?_ (by norm_num)
    rw [relevance_pre_clamp_eval ht hf hk ha]
    simp only [List.length_nil, List.length_cons]
    norm_num
  · have ht : found_tickers
        (classify_text "ASA Gold and Precious Metals reports Q3 results" "")
        = ["ASA"] := by decide
    have hf : found_fund_names
        (classify_text "ASA Gold and Precious Metals reports Q3 results" "")
        = [] := by decide
    have hk : found_keywords
        (classify_text "ASA Gold and Precious Metals reports Q3 results" "")
        = [] := by decide
    have ha : found_activists
        (classify_text "ASA Gold and Precious Metals reports Q3 results" "")
        = [] := by decide
    refine relevance_eval_of_pre ?_ (by norm_num)
    rw [relevance_pre_clamp_eval ht hf hk ha]
    simp only [List.length_nil, List.length_cons]
    norm_num

/-- C1 (amended): a matched ticker (word-boundary, case-insensitive)
contributes +0.4 per distinct ticker found, and there is no suppression of
"ASA" for texts containing "norway"/"norwegian": ASA is in `tickers` exactly
when the word-boundary search finds it, and both sample texts match ASA and
gain +0.4. -/
theorem c1_amended_ticker_weight :
    (∀ title content,
        "ASA" ∈ (enhanced_classify_article title content).tickers ↔
          word_search (['a', 's', 'a']) none (classify_text title content) = true)
    ∧ (∀ title content,
        relevance_pre_clamp (classify_text title content)
          = (2/5) * ((found_tickers (classify_text title content)).length : ℚ)
            + ((3/10) * ((found_fund_names (classify_text title content)).length : ℚ)
              + (1/5) * ((found_keywords (classify_text title content)).length : ℚ)
              + (1/2) * ((found_activists (classify_text title content)).length : ℚ)
              + (if 1 < (found_tickers (classify_text title content)).length
                  then 1/5 else 0)))
    ∧ (enhanced_classify_article
        "ASA Gold and Precious Metals reports Q3 results" "").tickers = ["ASA"]
    ∧ (enhanced_classify_article "Norway ASA registration rules changed" "").tickers
        = ["ASA"] := by
  refine ⟨?_, ?_, by decide, by decide⟩
  · intro title content
    show "ASA" ∈ found_tickers (classify_text title content) ↔ _
    rw [found_tickers, List.mem_filter]
    have hlow : "ASA".data.map Char.toLower = ['a', 's', 'a'] := by decide
    rw [hlow]
    constructor
    · exact fun h => h.2
    · exact fun h => ⟨by decide, h⟩
  · intro title content
    rw [relevance_pre_clamp]
    ring

/-- C2 counterexample: there is no priority weighting among activist firms.
"Saba Capital" heads the roster (the top-priority, highest-profile CEF
activist), yet a text mentioning only it accumulates exactly 0.5, not a
pre-clamp score of at least 1.0. -/
theorem c2_counterexample :
    relevance_pre_clamp (classify_text "Saba Capital" "") = 1/2
    ∧ (enhanced_classify_article "Saba Capital" "").activists = ["Saba Capital"]
    ∧ relevance_pre_clamp (classify_text "Saba Capital" "") < 1 := by
  refine ⟨relevance_pre_clamp_saba, by decide, ?_⟩
  rw [relevance_pre_clamp_saba]
  norm_num

/-- C2 (amended): every matched activist firm contributes a flat +0.5 per
distinct firm, with no extra weight for any top-priority firm, and is
appended to `activist_mentions`; a text mentioning exactly one roster firm
(any of them) accumulates exactly 0.5. -/
theorem c2_amended_activist_weight :
    (∀ title content,
        relevance_pre_clamp (classify_text title content)
          = (1/2) * ((found_activists (classify_text title content)).length : ℚ)
            + ((2/5) * ((found_tickers (classify_text title content)).length : ℚ)
              + (3/10) * ((found_fund_names (classify_text title content)).length : ℚ)
              + (1/5) * ((found_keywords (classify_text title content)).length : ℚ)
              + (if 1 < (found_tickers (classify_text title content)).length
                  then 1/5 else 0)))
    ∧ (∀ title content,
        (enhanced_classify_article title content).activists
          = found_activists (classify_text title content))
    ∧ ∀ f ∈ activist_firms,
        relevance_pre_clamp (classify_text f "") = 1/2
        ∧ (enhanced_classify_article f "").activists = [f] := by
  refine ⟨?_, fun _ _ => rfl, ?_⟩
  · intro title content
    rw [relevance_pre_clamp]
    ring
  · intro f hf
    fin_cases hf <;>
      exact ⟨activist_only_eval (by decide) (by decide) (by decide) (by decide),
        by decide⟩

/-- Witness for C2 (amended) at the roster's first firm. -/
theorem c2_amended_witness :
    relevance_pre_clamp (classify_text "Saba Capital" "") = 1/2
    ∧ (enhanced_classify_article "Saba Capital" "").activists = ["Saba Capital"] :=
  c2_amended_activist_weight.2.2 "Saba Capital" (by decide)

/-- C3 counterexample: a fund-name match is worth 0.3, not 0.6, and neither
populates the article's `fund_names` nor adds any ticker: the article built
from a "BlackRock" title has relevance 0.3, empty `tickers` and empty
`fund_names`. -/
theorem c3_counterexample :
    relevance_pre_clamp (classify_text "BlackRock" "") = 3/10
    ∧ (enhanced_classify_article "BlackRock" "").tickers = []
    ∧ (process_articles [raw_blackrock]).map
        (fun a => (a.fund_names, a.tickers)) = [([], [])] := by
  refine ⟨relevance_pre_clamp_blackrock, by decide, ?_⟩
  rw [process_raw_blackrock]
  rfl

/-- C3 (amended): the classifier matches fund-family (management company)
names as case-insensitive substrings for +0.3 per match; the matched names
are collected only locally — the returned `tickers` come from the ticker scan
alone, and every processed article carries `fund_names = []`. -/
theorem c3_amended_fund_family :
    (∀ title content,
        relevance_pre_clamp (classify_text title content)
          = (3/10) * ((found_fund_names (classify_text title content)).length : ℚ)
            + ((2/5) * ((found_tickers (classify_text title content)).length : ℚ)
              + (1/5) * ((found_keywords (classify_text title content)).length : ℚ)
              + (1/2) * ((found_activists (classify_text title content)).length : ℚ)
              + (if 1 < (found_tickers (classify_text title content)).length
                  then 1/5 else 0)))
    ∧ (∀ title content,
        (enhanced_classify_article title content).tickers
          = found_tickers (classify_text title content))
    ∧ (∀ (raws : List RawArticle) (a : EnhancedNewsArticle),
        a ∈ process_articles raws → a.fund_names = [])
    ∧ relevance_pre_clamp (classify_text "BlackRock" "") = 3/10 := by
  refine ⟨?_, fun _ _ => rfl, ?_, relevance_pre_clamp_blackrock⟩
  · intro title content
    rw [relevance_pre_clamp]
    ring
  · intro raws a ha
    rcases mem_process_articles ha with ⟨r, _, hb, _⟩
    exact build_article_fund_names hb

/-- Witness for C3 (amended): the processed BlackRock article has empty
`fund_names`. -/
theorem c3_amended_witness : art_blackrock.fund_names = [] :=
  c3_amended_fund_family.2.2.1 [raw_blackrock] art_blackrock
    (process_raw_blackrock ▸ List.mem_singleton_self art_blackrock)

/-- C4 counterexample: the keyword signal is additive at +0.2 per matching
keyword, not a flat +0.1: a text matching the two keywords "tender offer" and
"rights offering" (and nothing else) accumulates 0.4, while a text matching
only "tender offer" accumulates 0.2. -/
theorem c4_counterexample :
    relevance_pre_clamp (classify_text "tender offer and rights offering" "") = 2/5
    ∧ relevance_pre_clamp (classify_text "tender offer" "") = 1/5 := by
  constructor
  · have ht : found_tickers (classify_text "tender offer and rights offering" "")
        = [] := by decide
    have hf : found_fund_names (classify_text "tender offer and rights offering" "")
        = [] := by decide
    have hk : found_keywords (classify_text "tender offer and rights offering" "")
        = ["rights offering", "tender offer"] := by decide
    have ha : found_activists (classify_text "tender offer and rights offering" "")
        = [] := by decide
    rw [relevance_pre_clamp_eval ht hf hk ha]
    simp only [List.length_nil, List.length_cons]
    norm_num
  · have ht : found_tickers (classify_text "tender offer" "") = [] := by decide
    have hf : found_fund_names (classify_text "tender offer" "") = [] := by decide
    have hk : found_keywords (classify_text "tender offer" "")
        = ["tender offer"] := by decide
    have ha : found_activists (classify_text "tender offer" "") = [] := by decide
    rw [relevance_pre_clamp_eval ht hf hk ha]
    simp only [List.length_nil, List.length_cons]
    norm_num

/-- C4 (amended): keyword presence contributes +0.2 per matching keyword of
the fixed list, additively — two matching keywords contribute twice what a
single one does, as the two concrete texts show. -/
theorem c4_amended_keyword_weight :
    (∀ title content,
        relevance_pre_clamp (classify_text title content)
          = (1/5) * ((found_keywords (classify_text title content)).length : ℚ)
            + ((2/5) * ((found_tickers (classify_text title content)).length : ℚ)
              + (3/10) * ((found_fund_names (classify_text title content)).length : ℚ)
              + (1/2) * ((found_activists (classify_text title content)).length : ℚ)
              + (if 1 < (found_tickers (classify_text title content)).length
                  then 1/5 else 0)))
    ∧ (found_keywords (classify_text "tender offer and rights offering" "")).length = 2
    ∧ (found_keywords (classify_text "tender offer" "")).length = 1 := by
  refine ⟨?_, by decide, by decide⟩
  intro title content
  rw [relevance_pre_clamp]
  ring

/-- C8: whenever more than one distinct ticker is matched, the pre-clamp
relevance carries an extra +0.2 on top of the four per-match signal sums. -/
theorem c8_multi_ticker_bonus (title content : String)
    (h : 1 < (found_tickers (classify_text title content)).length) :
    relevance_pre_clamp (classify_text title content)
      = (2/5) * ((found_tickers (classify_text title content)).length : ℚ)
        + (3/10) * ((found_fund_names (classify_text title content)).length : ℚ)
        + (1/5) * ((found_keywords (classify_text title content)).length : ℚ)
        + (1/2) * ((found_activists (classify_text title content)).length : ℚ)
        + 1/5 := by
  rw [relevance_pre_clamp, if_pos h]

/-- Witness for C8 at the two-ticker text "SWZ and JOF". -/
theorem c8_witness :
    1 < (found_tickers (classify_text "SWZ and JOF" "")).length
    ∧ relevance_pre_clamp (classify_text "SWZ and JOF" "")
        = (2/5) * ((found_tickers (classify_text "SWZ and JOF" "")).length : ℚ)
          + (3/10) * ((found_fund_names (classify_text "SWZ and JOF" "")).length : ℚ)
          + (1/5) * ((found_keywords (classify_text "SWZ and JOF" "")).length : ℚ)
          + (1/2) * ((found_activists (classify_text "SWZ and JOF" "")).length : ℚ)
          + 1/5 :=
  ⟨by decide, c8_multi_ticker_bonus "SWZ and JOF" "" (by decide)⟩

